import Mathlib

/-!
Verification of the fast-nginx provisioning tool against its specification.

The shipped program is `bin/cli.js`, which imports the privileged file
helpers (`sudoWriteFsFile`, `sudoLinkFsFile`, `sudoUnlinkFsFile`) from
`src/utils/file.helper.js` and the template module
`src/templates/basic.template.js`.  The repository also carries two older,
self-contained orchestrator variants of `setupNginxServerBlock`; where a
variant disagrees with `bin/cli.js`, the shipped entry point is the
authority and the divergence is recorded in the theorems below.

All definitions are executable translations of the JavaScript source.
Strings escape literal braces as \x7b | \x7d and apostrophes as \x27.
-/

namespace FastNginx

set_option maxRecDepth 200000

/-! ### Character classes used by the validators

JavaScript regex character classes from `bin/cli.js` lines 61-75.
`isJsWhitespace` models the ASCII part of the regex class `\s` and of the
whitespace skipped by `Number.parseInt` (the non-ASCII whitespace code
points never occur in the inputs considered here). -/

def isJsWhitespace (c : Char) : Bool :=
  c = ' ' ∨ c = '\t' ∨ c = '\n' ∨ c = '\r' ∨ c = '\x0b' ∨ c = '\x0c'

def isAlnum (c : Char) : Bool :=
  ('a' ≤ c ∧ c ≤ 'z') ∨ ('A' ≤ c ∧ c ≤ 'Z') ∨ ('0' ≤ c ∧ c ≤ '9')

def isAlnumOrDash (c : Char) : Bool :=
  isAlnum c || c = '-'

def isHexDigitChar (c : Char) : Bool :=
  c.isDigit ∨ ('a' ≤ c ∧ c ≤ 'f') ∨ ('A' ≤ c ∧ c ≤ 'F')

/-- Splits a character list at every occurrence of `sep`; the separator is
dropped.  `splitOnChar sep` of the empty list is `[[]]`, matching the fact
that the anchored regexes below must match at least one (possibly empty)
segment. -/
def splitOnChar (sep : Char) (cs : List Char) : List (List Char) :=
  match cs with
  | [] => [[]]
  | c :: rest =>
    let r := splitOnChar sep rest
    if c = sep then [] :: r
    else
      match r with
      | [] => [[c]]
      | l :: ls => (c :: l) :: ls

/-! ### validateDomain (bin/cli.js lines 61-65)

The source tests the anchored regex
`^[a-zA-Z0-9][a-zA-Z0-9-]\x7b0,61\x7d[a-zA-Z0-9](?:\.[a-zA-Z0-9][a-zA-Z0-9-]\x7b0,61\x7d[a-zA-Z0-9])*$`.
No label class matches a dot, so the regex accepts a string exactly when
every dot-separated segment matches the label pattern
`[a-zA-Z0-9][a-zA-Z0-9-]\x7b0,61\x7d[a-zA-Z0-9]` exactly; with backtracking over
the greedy `\x7b0,61\x7d`, a segment of length n matches exactly when
2 ≤ n ≤ 63, its first and last characters are alphanumeric and every
middle character is alphanumeric or a dash.  `matchesDomainLabel` states
those conditions directly. -/

def matchesDomainLabel (cs : List Char) : Bool :=
  match cs with
  | [] => false
  | [_] => false
  | c :: rest =>
    isAlnum c && decide ((c :: rest).length ≤ 63) &&
    (match rest.getLast? with
     | some d => isAlnum d
     | none => false) &&
    rest.dropLast.all isAlnumOrDash

def validateDomain (domain : String) : Bool :=
  (splitOnChar '.' domain.data).all matchesDomainLabel

/-! ### validatePort (bin/cli.js lines 67-70)

`Number.parseInt(port)` followed by `portNum > 0 && portNum <= 65535`.
`jsParseInt` models `Number.parseInt` with no radix argument: skip
whitespace, read an optional sign, then either a `0x`/`0X`-prefixed
hexadecimal literal or a run of decimal digits; no digits means NaN,
modelled as `none` (every comparison against NaN is false).  The only
divergence from JavaScript is that the result is an exact integer rather
than a 64-bit float; for the port range 0-65535 this is immaterial. -/

def intPrefixBody (s : String) : List Char :=
  let t := s.data.dropWhile isJsWhitespace
  match t with
  | c :: rest => if c = '-' ∨ c = '+' then rest else t
  | [] => []

def jsParseIntSign (s : String) : Int :=
  match s.data.dropWhile isJsWhitespace with
  | c :: _ => if c = '-' then -1 else 1
  | [] => 1

def digitVal (c : Char) : Nat :=
  if c.isDigit then c.toNat - '0'.toNat
  else if 'a' ≤ c ∧ c ≤ 'f' then c.toNat - 'a'.toNat + 10
  else c.toNat - 'A'.toNat + 10

def natOfDigits (base : Nat) (ds : List Char) : Nat :=
  ds.foldl (fun acc c => acc * base + digitVal c) 0

def jsParseInt (s : String) : Option Int :=
  let u := intPrefixBody s
  let isHex : Bool :=
    match u with
    | a :: b :: _ => a = '0' ∧ (b = 'x' ∨ b = 'X')
    | _ => false
  if isHex then
    let ds := (u.drop 2).takeWhile isHexDigitChar
    if ds.isEmpty then none else some (jsParseIntSign s * (natOfDigits 16 ds : Nat))
  else
    let ds := u.takeWhile Char.isDigit
    if ds.isEmpty then none else some (jsParseIntSign s * (natOfDigits 10 ds : Nat))

def validatePort (port : String) : Bool :=
  match jsParseInt port with
  | none => false
  | some n => decide (0 < n) && decide (n ≤ 65535)

/-- A string is non-numeric for `Number.parseInt` when, after optional
whitespace and an optional sign, it does not start with a decimal digit
(so parsing yields NaN). -/
def hasNumericPrefix (s : String) : Bool :=
  match intPrefixBody s with
  | c :: _ => c.isDigit
  | [] => false

/-! ### validateEmail (bin/cli.js lines 72-75)

The source tests `^[^\s@]+@[^\s@]+\.[^\s@]+$`.  Both bracketed classes
exclude `@`, so a match forces exactly one `@`; the part before it is a
nonempty run without whitespace, and the part after it is a run without
whitespace or `@` containing a dot that has at least one character on each
side (the classes do allow further dots). -/

def validateEmail (email : String) : Bool :=
  match splitOnChar '@' email.data with
  | [localPart, rest] =>
    !localPart.isEmpty &&
    localPart.all (fun c => !isJsWhitespace c) &&
    rest.all (fun c => !isJsWhitespace c) &&
    ((rest.drop 1).dropLast.contains '.')
  | _ => false

/-! ### generateBasicNginxConfigTemplate (src/templates/basic.template.js)

A verbatim translation of the template literal.  The function reads
`options.www` only, passed here as the `www` argument; the embedded
`new Date().toISOString()` is passed as `timestamp`. -/

def generateBasicNginxConfigTemplate (www : Bool) (domain port timestamp : String) : String :=
  "# fast-nginx generated configuration for " ++ domain ++
  "\n# Generated on: " ++ timestamp ++
  "\n\nserver \x7b\n    listen 80;\n    server_name " ++ domain ++
  (if www then " www." ++ domain else "") ++
  ";\n\n    location / \x7b\n        proxy_pass http://127.0.0.1:" ++ port ++
  ";\n        proxy_http_version 1.1;\n        proxy_set_header Upgrade $http_upgrade;\n        proxy_set_header Connection \x27upgrade\x27;\n        proxy_set_header Host $host;\n        proxy_cache_bypass $http_upgrade;\n        proxy_set_header X-Real-IP $remote_addr;\n        proxy_set_header X-Forwarded-For $proxy_add_x_forwarded_for;\n        proxy_set_header X-Forwarded-Proto $scheme;\n    \x7d\n    \n    listen 443 ssl;\n    ssl_certificate /etc/letsencrypt/live/" ++ domain ++
  "/fullchain.pem; \n    ssl_certificate_key /etc/letsencrypt/live/" ++ domain ++
  "/privkey.pem;\n    include /etc/letsencrypt/options-ssl-nginx.conf;\n    ssl_dhparam /etc/letsencrypt/ssl-dhparams.pem;\n\x7d\n\nserver \x7b\n    if ($host = " ++ domain ++
  ") \x7b\n        return 301 https://$host$request_uri;\n    \x7d # managed by Certbot\n\n    listen 80;\n    server_name " ++ domain ++
  ";\n    return 404; # managed by Certbot\n\x7d"

/-- getTemplate (bin/cli.js lines 78-86): the lookup table contains only
the `basic` entry (the `api` and `spa` generators are commented out), and
an unknown key falls back to `templates.basic`, so every template type
renders the basic template. -/
def getTemplate (templateType : String) (www : Bool) (domain port timestamp : String) : String :=
  generateBasicNginxConfigTemplate www domain port timestamp

/-! ### sudoLinkFsFile (src/utils/file.helper.js lines 50-90), in isolation

The helper spawns `sudo ln -s path1 path2` and reacts to the process
events.  Each element of `events` is one observed `ln` attempt: the first
component is the `close` exit code (with `-1` standing for the spawn
`error` event, whose handler calls `callback(err)`), and the second is the
exit code of the `sudo rm path2` process, consulted only when the `ln`
exit code is 1.  The result is `some none` for `callback(null)`,
`some (some msg)` for `callback(Error)`, and `none` when the trace ends
with no callback invoked at all — which is what the source does both while
the recursion is still running and for any `ln` exit code other than 0
and 1 (neither `if` branch fires, so the operation stays pending
forever). -/

def sudoLinkFsFile (events : List (Int × Int)) : Option (Option String) :=
  match events with
  | [] => none
  | (c, rc) :: rest =>
    if c = -1 then some (some "spawn error")
    else if c = 0 then some none
    else if c = 1 then
      if rc = 0 then sudoLinkFsFile rest
      else some (some "Failed to remove file")
    else none

/-- Number of `ln` invocations whose outcome is recorded in the trace:
an attempt that exits 1 with a successful removal is followed by a
recursive retry, every other recorded outcome ends the recursion. -/
def sudoLinkFsFileAttempts (events : List (Int × Int)) : Nat :=
  match events with
  | [] => 0
  | (c, rc) :: rest =>
    if c = 1 ∧ rc = 0 then 1 + sudoLinkFsFileAttempts rest
    else 1

/-! ### The shipped orchestrator: setupNginxServerBlock (bin/cli.js)

The run is modelled as a function of the parsed options, an environment
giving the outcome of every external observation (file existence, process
exit codes, interactive answers), and the initial state of the two
filesystem artifacts for the requested domain.  The model records a trace
of the externally visible operations; console output is not modelled.

All I/O is sequentialized in event-loop order.  `sudoWriteFsFile` returns
a promise resolved by its close event, so the awaited write completes at
its call site.  `sudoLinkFsFile`, by contrast, is an async function that
spawns its first process and returns with no promise tied to any event,
so the `await` at bin/cli.js line 560 resolves immediately: the
orchestrator continues through the config test, the SSL step and the
success report — all synchronous `execSync` calls that block the event
loop — and the helper's queued close handlers run only after the main
function has finished, or never, when the run calls `process.exit`
first. -/

inductive CheckStatus where
  | ok
  | warning
  | error
deriving DecidableEq, Repr

structure SystemCheck where
  name : String
  status : CheckStatus
  message : String
deriving DecidableEq, Repr

inductive Action where
  | execA (cmd : String)
  | promptA (question : String)
  | mkdirA (path : String)
  | writeFileA (path : String)
  | teeA (path : String)
  | rmA (path : String)
  | lnA (target : String) (path : String)
  | unlinkA (path : String)
  | renderedA
deriving DecidableEq, Repr

/-- Actions that create, modify or delete a filesystem artifact. -/
def isMutationAction : Action → Bool
  | .mkdirA _ => true
  | .writeFileA _ => true
  | .teeA _ => true
  | .rmA _ => true
  | .lnA _ _ => true
  | .unlinkA _ => true
  | _ => false

def mutationFree (tr : List Action) : Bool :=
  tr.all (fun a => !isMutationAction a)

def containsAction (tr : List Action) (a : Action) : Bool :=
  tr.any (fun b => b == a)

/-- An entry of the filesystem at one of the two artifact paths. -/
inductive FsEntry where
  | file (content : String)
  | symlink (target : String)
deriving DecidableEq, Repr

/-- State of the two artifacts for the requested domain:
`/etc/nginx/sites-available/DOMAIN` and `/etc/nginx/sites-enabled/DOMAIN`. -/
structure NginxFs where
  available : Option FsEntry
  enabled : Option FsEntry
deriving DecidableEq, Repr

/-- `fs.existsSync` follows symlinks.  The only symlink the shipped code
ever stores at an artifact path targets the relative path
"fs.symlinkSync", which is assumed absent, so a symlink entry reads as
non-existent. -/
def jsExistsEntry : Option FsEntry → Bool
  | none => false
  | some (.file _) => true
  | some (.symlink _) => false

/-- The commander options of bin/cli.js.  `noReload` is the `--no-reload`
flag as the user passes it; the shipped code never consults it (its only
use, the reload block, is commented out). -/
structure Options where
  domain : String
  port : String
  ssl : Bool
  email : Option String
  www : Bool
  force : Bool
  dryRun : Bool
  template : String
  noReload : Bool
  yes : Bool

/-- Outcomes of every external observation the run can make, fixed up
front.  `lnExitCode i` and `rmExitCode i` are the exit codes of the i-th
`sudo ln -s` and `sudo rm` processes spawned by the link helper, with `-1`
denoting the spawn `error` event; `linkFuel` bounds the helper's
remove-and-retry recursion, which the source itself does not bound. -/
structure Env where
  platformWin32 : Bool
  platformName : String
  hasGetuid : Bool
  uid : Nat
  whichNginxOk : Bool
  etcNginxExists : Bool
  sitesAvailableDirExists : Bool
  sitesEnabledDirExists : Bool
  answerCreateAvailable : Bool
  mkdirAvailableOk : Bool
  answerCreateEnabled : Bool
  mkdirEnabledOk : Bool
  nginxConfExists : Bool
  nginxConfReadable : Bool
  nginxConfHasInclude : Bool
  answerAddInclude : Bool
  nginxConfWriteOk : Bool
  now : String
  teeOk : Bool
  teeStderr : Bool
  lnExitCode : Nat → Int
  rmExitCode : Nat → Int
  linkFuel : Nat
  nginxTestOk : Bool
  certbotInstalled : Bool
  debianExists : Bool
  redhatExists : Bool
  certbotInstallOk : Bool
  certbotOk : Bool
  ginxTestOk : Bool

/-- askUser (bin/cli.js lines 41-58): with `--yes` the answer is true and
no interactive prompt is shown; otherwise the user is prompted and the
environment supplies the answer. -/
def askUser (opts : Options) (envAnswer : Bool) (question : String) : Bool × List Action :=
  if opts.yes then (true, [])
  else (envAnswer, [.promptA question])

/-- One sites-directory check of checkSystemRequirements (bin/cli.js
lines 149-250).  `mkdirSync` is recorded as an action only when it
succeeds. -/
def directoryCheck (opts : Options) (dirExists envAnswer mkOk : Bool)
    (checkName question path : String) : SystemCheck × List Action :=
  if dirExists then (⟨checkName, .ok, "Directory exists"⟩, [])
  else if opts.dryRun then (⟨checkName, .warning, "Directory missing (would create)"⟩, [])
  else
    let (ans, tr) := askUser opts envAnswer question
    if ans then
      if mkOk then (⟨checkName, .ok, "Directory created"⟩, tr ++ [.mkdirA path])
      else (⟨checkName, .error, "Failed to create directory"⟩, tr)
    else (⟨checkName, .error, "Directory missing and not created"⟩, tr)

/-- The nginx.conf include-directive check (bin/cli.js lines 252-334).
When the directive is added, the original is backed up first and both
writes are recorded; a failed update records no write. -/
def includeDirectiveCheck (opts : Options) (env : Env) : List SystemCheck × List Action :=
  if !env.nginxConfExists then ([], [])
  else if !env.nginxConfReadable then
    ([⟨"Nginx include directive", .error, "Cannot read nginx.conf"⟩], [])
  else if env.nginxConfHasInclude then
    ([⟨"Nginx include directive", .ok, "Present in nginx.conf"⟩], [])
  else if opts.dryRun then
    ([⟨"Nginx include directive", .warning, "sites-enabled include missing (would add)"⟩], [])
  else
    let (ans, tr) := askUser opts env.answerAddInclude
      "Would you like to add the include directive to nginx.conf?"
    if ans then
      if env.nginxConfWriteOk then
        ([⟨"Nginx include directive", .ok, "Added to nginx.conf"⟩],
          tr ++ [.writeFileA "/etc/nginx/nginx.conf.backup", .writeFileA "/etc/nginx/nginx.conf"])
      else ([⟨"Nginx include directive", .error, "Failed to update nginx.conf"⟩], tr)
    else ([⟨"Nginx include directive", .warning, "Include directive not added"⟩], tr)

/-- checkSystemRequirements, the inline version of bin/cli.js lines
92-337 (the separate module src/validators/system.validator.js is not
imported by the shipped entry point).  In dry-run mode no Permissions
check is pushed and every mutating branch is replaced by a warning. -/
def checkSystemRequirements (opts : Options) (env : Env) : List SystemCheck × List Action :=
  let osCheck : SystemCheck :=
    if env.platformWin32 then ⟨"Operating System", .error, "Windows is not supported"⟩
    else ⟨"Operating System", .ok, env.platformName⟩
  let permChecks : List SystemCheck :=
    if env.hasGetuid && env.uid != 0 && !opts.dryRun then
      [⟨"Permissions", .warning, "Not running as root - some operations may fail"⟩]
    else if !opts.dryRun then
      [⟨"Permissions", .ok, "Running with sufficient privileges"⟩]
    else []
  let nginxCheck : SystemCheck :=
    if env.whichNginxOk then ⟨"Nginx", .ok, "Installed"⟩
    else ⟨"Nginx", .error, "Not installed"⟩
  let tr0 : List Action := [.execA "which nginx"]
  if !env.etcNginxExists then
    ([osCheck] ++ permChecks ++
      [nginxCheck, ⟨"Nginx Configuration", .error, "Nginx config directory not found"⟩], tr0)
  else
    let availPair := directoryCheck opts env.sitesAvailableDirExists env.answerCreateAvailable
      env.mkdirAvailableOk "Nginx sites-available"
      "Would you like to create the sites-available directory?" "/etc/nginx/sites-available"
    let enabPair := directoryCheck opts env.sitesEnabledDirExists env.answerCreateEnabled
      env.mkdirEnabledOk "Nginx sites-enabled"
      "Would you like to create the sites-enabled directory?" "/etc/nginx/sites-enabled"
    let inclPair := includeDirectiveCheck opts env
    ([osCheck] ++ permChecks ++ [nginxCheck, availPair.1, enabPair.1] ++ inclPair.1,
      tr0 ++ availPair.2 ++ enabPair.2 ++ inclPair.2)

def hasCriticalError (checks : List SystemCheck) : Bool :=
  checks.any (fun c => c.status == .error)

def sitesAvailablePath (domain : String) : String :=
  "/etc/nginx/sites-available/" ++ domain

def sitesEnabledPath (domain : String) : String :=
  "/etc/nginx/sites-enabled/" ++ domain

/-- The certbot command line built by setupSSL (bin/cli.js lines 384-392). -/
def certbotCommand (www : Bool) (domain email : String) : String :=
  "sudo certbot --nginx " ++
  (if www then "-d " ++ domain ++ " -d www." ++ domain else "-d " ++ domain) ++
  " --email " ++ email ++ " --agree-tos --non-interactive --redirect"

/-- The certbot invocation and the follow-up test of setupSSL; the tested
binary name "ginx" is the source's own typo (bin/cli.js line 397).  Any
failure is caught and reported as `false`. -/
def setupSSLCertbotRun (opts : Options) (env : Env) (tr : List Action) : Bool × List Action :=
  let tr := tr ++ [.execA (certbotCommand opts.www opts.domain (opts.email.getD ""))]
  if !env.certbotOk then (false, tr)
  else
    let tr := tr ++ [.execA "sudo ginx -t"]
    if env.ginxTestOk then (true, tr) else (false, tr)

/-- setupSSL (bin/cli.js lines 340-407): ensure certbot is present
(installing via apt or yum when a distribution marker file exists), then
run it; every failure path returns `false` and the caller continues. -/
def setupSSL (opts : Options) (env : Env) (tr : List Action) : Bool × List Action :=
  let tr := tr ++ [.execA "which certbot"]
  if env.certbotInstalled then setupSSLCertbotRun opts env tr
  else if env.debianExists then
    let tr := tr ++ [.execA "sudo apt update && apt install certbot python3-certbot-nginx -y"]
    if env.certbotInstallOk then setupSSLCertbotRun opts env tr else (false, tr)
  else if env.redhatExists then
    let tr := tr ++ [.execA "sudo yum install certbot python3-certbot-nginx -y"]
    if env.certbotInstallOk then setupSSLCertbotRun opts env tr else (false, tr)
  else (false, tr)

inductive CascadeResult where
  | crashExit
  | quiet
  | hung
deriving DecidableEq, Repr

/-- The close-handler cascade of the link call as bin/cli.js line 560
actually performs it.  The call
`sudoLinkFsFile(VALUE-fs.symlinkSync, sitesAvailable, sitesEnabled, cb)`
passes four arguments to a three-parameter helper, so inside the helper
`path1` is the literal string "fs.symlinkSync", `path2` is the
sites-available path, and `callback` is the sites-enabled path — a string,
not a function; the error-handling callback `cb` is dropped.  Hence every
`ln` attempt targets the sites-available path.  The helper spawns the
first `ln` and returns at once, so its close handlers run only when the
event loop next turns — after the synchronous remainder of the run, and
not at all if the run exits first (see `setupNginxServerBlock`).

This function processes the close event of attempt `i`, whose process has
already run (the process's own filesystem effect — creating the symlink
when it exits 0 — is applied where the process is spawned, not here).
On exit code 1 the handler spawns `sudo rm` of the sites-available path;
a successful removal deletes the entry and respawns `ln` (whose effect
applies as it runs), recursing on the new close event.  Any invocation of
`callback` — `callback(null)` on exit 0, `callback(err)` on a spawn
error (encoded -1), `callback(Error)` on a failed removal — raises a
TypeError on the string, which reaches the uncaughtException handler and
terminates the process with exit code 1 (`crashExit`).  An exit code
other than 0 and 1 fires neither branch of the close handler, so the
cascade ends with no callback ever invoked and the process exits normally
(`quiet`).  `hung` reports exhaustion of the fuel bounding this otherwise
unbounded recursion. -/
def cliLinkCascade (env : Env) (availPath : String) :
    Nat → Nat → NginxFs → List Action → CascadeResult × NginxFs × List Action
  | 0, _, fs, tr => (.hung, fs, tr)
  | fuel+1, i, fs, tr =>
    let c := env.lnExitCode i
    if c = -1 then (.crashExit, fs, tr)
    else if c = 0 then (.crashExit, fs, tr)
    else if c = 1 then
      let tr := tr ++ [.rmA availPath]
      if env.rmExitCode i = 0 then
        let fs1 : NginxFs := { fs with available := none }
        let tr := tr ++ [.lnA "fs.symlinkSync" availPath]
        let fs2 : NginxFs :=
          if env.lnExitCode (i+1) = 0 then
            { fs1 with available := some (.symlink "fs.symlinkSync") }
          else fs1
        cliLinkCascade env availPath fuel (i+1) fs2 tr
      else (.crashExit, fs, tr)
    else (.quiet, fs, tr)

inductive RunOutcome where
  | exited (code : Nat)
  | hung
deriving DecidableEq, Repr

structure RunResult where
  outcome : RunOutcome
  fs : NginxFs
  trace : List Action
deriving DecidableEq, Repr

/-- setupNginxServerBlock (bin/cli.js lines 410-659), sequentialized in
event-loop order.

Steps: system checks (fatal on an error status unless dry-run), input
validation, template render, dry-run short circuit, conflict check
(`existsSync && !force` exits 1 with no prompt), the `sudo tee` write
(any failure or stderr output exits 1), then the mis-wired link call:
the helper spawns the first `ln` (whose process runs and, on exit 0,
creates a dangling symlink at the sites-available path) and returns at
once, so the orchestrator continues — it prints the link success message
and runs the `sudo nginx -t` test regardless (the command string keeps
the source's leading space).  A failed test calls `process.exit(1)`
synchronously with no cleanup, and since the event loop never turns, the
link cascade never runs either.  A passed test is followed by no reload
(the reload block is commented out in the source) and the optional SSL
step, whose failure is non-fatal; when the main function then finishes,
the event loop delivers the queued close event and the cascade
(`cliLinkCascade`) runs to its end, possibly crashing the process with
exit code 1. -/
def setupNginxServerBlock (opts : Options) (env : Env) (fs0 : NginxFs) : RunResult :=
  let checks := (checkSystemRequirements opts env).1
  let tr := (checkSystemRequirements opts env).2
  if hasCriticalError checks && !opts.dryRun then ⟨.exited 1, fs0, tr⟩
  else if !validateDomain opts.domain then ⟨.exited 1, fs0, tr⟩
  else if !validatePort opts.port then ⟨.exited 1, fs0, tr⟩
  else if opts.ssl && opts.email.isNone then ⟨.exited 1, fs0, tr⟩
  else if opts.ssl && !validateEmail (opts.email.getD "") then ⟨.exited 1, fs0, tr⟩
  else
    let nginxConfig := getTemplate opts.template opts.www opts.domain opts.port env.now
    let tr := tr ++ [.renderedA]
    if opts.dryRun then ⟨.exited 0, fs0, tr⟩
    else if jsExistsEntry fs0.available && !opts.force then ⟨.exited 1, fs0, tr⟩
    else
      let tr := tr ++ [.teeA (sitesAvailablePath opts.domain)]
      if !env.teeOk then ⟨.exited 1, fs0, tr⟩
      else
        let fs1 : NginxFs := { fs0 with available := some (.file nginxConfig) }
        if env.teeStderr then ⟨.exited 1, fs1, tr⟩
        else
          let tr := tr ++ [.lnA "fs.symlinkSync" (sitesAvailablePath opts.domain)]
          let fs2 : NginxFs :=
            if env.lnExitCode 0 = 0 then
              { fs1 with available := some (.symlink "fs.symlinkSync") }
            else fs1
          let tr := tr ++ [.execA " sudo nginx -t"]
          if !env.nginxTestOk then ⟨.exited 1, fs2, tr⟩
          else
            let sslPair := if opts.ssl then setupSSL opts env tr else (false, tr)
            match cliLinkCascade env (sitesAvailablePath opts.domain)
                env.linkFuel 0 fs2 sslPair.2 with
            | (.crashExit, fs3, tr3) => ⟨.exited 1, fs3, tr3⟩
            | (.quiet, fs3, tr3) => ⟨.exited 0, fs3, tr3⟩
            | (.hung, fs3, tr3) => ⟨.hung, fs3, tr3⟩

/-- The input-validation conjunction of bin/cli.js lines 449-474. -/
def inputsValid (opts : Options) : Bool :=
  validateDomain opts.domain && validatePort opts.port &&
  (!opts.ssl || (opts.email.isSome && validateEmail (opts.email.getD "")))

/-! ### Concrete scenarios used by the closed theorems -/

/-- A standard request: `fast-nginx -d myapp.com -p 3000`. -/
def happyOptions : Options :=
  { domain := "myapp.com", port := "3000", ssl := false, email := none, www := false,
    force := false, dryRun := false, template := "basic", noReload := false, yes := false }

def dryRunOptions : Options := { happyOptions with dryRun := true }

def forceOptions : Options := { happyOptions with force := true }

/-- An environment where every prerequisite holds and every external
process behaves realistically: the machine is Linux, the run is root,
nginx is installed and configured, the `sudo tee` write succeeds, `ln -s`
exits 1 when its destination exists (it does: the helper targets the
just-written sites-available path) and succeeds once the destination has
been removed, `rm` succeeds, and the config test would pass. -/
def happyEnv : Env :=
  { platformWin32 := false, platformName := "linux", hasGetuid := true, uid := 0,
    whichNginxOk := true, etcNginxExists := true, sitesAvailableDirExists := true,
    sitesEnabledDirExists := true, answerCreateAvailable := false, mkdirAvailableOk := true,
    answerCreateEnabled := false, mkdirEnabledOk := true, nginxConfExists := true,
    nginxConfReadable := true, nginxConfHasInclude := true, answerAddInclude := false,
    nginxConfWriteOk := true, now := "2024-01-01T00:00:00.000Z", teeOk := true,
    teeStderr := false, lnExitCode := fun i => if i = 0 then 1 else 0,
    rmExitCode := fun _ => 0, linkFuel := 8, nginxTestOk := true, certbotInstalled := true,
    debianExists := true, redhatExists := false, certbotInstallOk := true, certbotOk := true,
    ginxTestOk := true }

/-- Like `happyEnv`, but the first `ln -s` process fails with a generic
error (exit code 2, e.g. permission denied), a code for which the helper's
close handler fires neither of its branches. -/
def linkOtherFailEnv : Env := { happyEnv with lnExitCode := fun _ => 2 }

/-- Like `happyEnv`, but the nginx configuration test fails. -/
def testFailEnv : Env := { happyEnv with nginxTestOk := false }

/-- An initial state in which a configuration file for the domain already
exists. -/
def conflictFs : NginxFs := ⟨some (.file "server"), none⟩

def isPromptAction : Action → Bool
  | .promptA _ => true
  | _ => false

/-- The reload commands of the source tree: bin/cli.js's commented-out
block uses `sudo systemctl reload nginx`, the older variants use
`nginx -s reload`. -/
def isReloadExec (a : Action) : Bool :=
  a == .execA "sudo systemctl reload nginx" || a == .execA "nginx -s reload"

/-! ### Helper lemmas -/

theorem jsParseInt_eq_none_of_no_numeric_prefix (s : String)
    (h : hasNumericPrefix s = false) : jsParseInt s = none := by
  unfold jsParseInt
  unfold hasNumericPrefix at h
  cases hu : intPrefixBody s with
  | nil => simp [hu]
  | cons c rest =>
    rw [hu] at h
    have hd : c.isDigit = false := h
    have hc : c ≠ '0' := by
      rintro rfl
      simp [Char.isDigit] at hd
    cases rest with
    | nil => simp [hu, hd]
    | cons b rest2 => simp [hu, hd, hc]

/-! ### Claim theorems -/

/-- Claim C8: validatePort accepts the strings "1" and "65535" and rejects
"0", "65536", "-1" and every non-numeric string (one whose first character
after optional whitespace and an optional sign is not a decimal digit, so
that Number.parseInt yields NaN). -/
theorem validatePort_boundary_and_nonnumeric :
    validatePort "1" = true ∧ validatePort "65535" = true ∧ validatePort "0" = false ∧
    validatePort "65536" = false ∧ validatePort "-1" = false ∧
    ∀ s : String, hasNumericPrefix s = false → validatePort s = false := by
  refine ⟨by decide, by decide, by decide, by decide, by decide, ?_⟩
  intro s h
  simp [validatePort, jsParseInt_eq_none_of_no_numeric_prefix s h]

/-- Witness for C8 at the concrete non-numeric input "abc". -/
theorem validatePort_boundary_and_nonnumeric_witness :
    hasNumericPrefix "abc" = false ∧ validatePort "abc" = false :=
  ⟨by decide, validatePort_boundary_and_nonnumeric.2.2.2.2.2 "abc" (by decide)⟩

/-- Claim C10: every domain string one of whose dot-separated labels has
exactly one character is rejected by validateDomain, because the label
regex requires at least two characters. -/
theorem validateDomain_rejects_single_char_label (s : String) (l : List Char)
    (hmem : l ∈ splitOnChar '.' s.data) (hlen : l.length = 1) :
    validateDomain s = false := by
  rw [validateDomain]
  by_contra hall
  rw [Bool.not_eq_false, List.all_eq_true] at hall
  have hl := hall l hmem
  obtain ⟨c, rfl⟩ := List.length_eq_one.mp hlen
  simp [matchesDomainLabel] at hl

/-- Witness for C10 at the concrete domain "x.com". -/
theorem validateDomain_rejects_single_char_label_witness :
    (['x'] ∈ splitOnChar '.' ("x.com").data) ∧ validateDomain "x.com" = false :=
  ⟨by decide,
    validateDomain_rejects_single_char_label "x.com" ['x'] (by decide) (by decide)⟩

/-- Counterexample for claim C3: after observing exit code 1 twice (the
"already exists" code, each time with a successful removal), the helper
does not surface a persistent-conflict Error; it launches a third link
attempt, which here succeeds.  This contradicts "retries exactly once; if
the retry fails again it surfaces a persistent-conflict Error". -/
theorem sudoLinkFsFile_retries_beyond_once :
    sudoLinkFsFile [((1:Int),(0:Int)), (1,0), (0,0)] = some none ∧
    sudoLinkFsFileAttempts [((1:Int),(0:Int)), (1,0), (0,0)] = 3 := by decide

/-- Amended claim C3: on the exit code indicating the link path exists,
sudoLinkFsFile removes the path and retries recursively without bound —
a trace of n conflicts with successful removals performs n link attempts
and never invokes the callback; an Error is surfaced only when the
removal itself fails; and a link exit code other than 0 and 1 (spawn
errors aside) invokes no callback at all, so the operation does not
always terminate with ok or Error. -/
theorem sudoLinkFsFile_unbounded_retry :
    (∀ n : Nat, sudoLinkFsFile (List.replicate n ((1:Int),(0:Int))) = none ∧
      sudoLinkFsFileAttempts (List.replicate n ((1:Int),(0:Int))) = n) ∧
    (∀ (rc : Int) (rest : List (Int × Int)), rc ≠ 0 →
      sudoLinkFsFile (((1:Int), rc) :: rest) = some (some "Failed to remove file")) ∧
    (∀ (c rc : Int) (rest : List (Int × Int)), c ≠ -1 → c ≠ 0 → c ≠ 1 →
      sudoLinkFsFile ((c, rc) :: rest) = none) := by
  refine ⟨?_, ?_, ?_⟩
  · intro n
    induction n with
    | zero => simp [sudoLinkFsFile, sudoLinkFsFileAttempts]
    | succ k ih =>
      rw [List.replicate_succ]
      exact ⟨by simp [sudoLinkFsFile, ih.1],
        by simp [sudoLinkFsFileAttempts, ih.2, Nat.add_comm]⟩
  · intro rc rest h
    simp [sudoLinkFsFile, h]
  · intro c rc rest h1 h2 h3
    simp [sudoLinkFsFile, h1, h2, h3]

/-- Witness for the amended C3 at a concrete failing removal. -/
theorem sudoLinkFsFile_unbounded_retry_witness :
    ((7:Int) ≠ 0) ∧ sudoLinkFsFile [((1:Int),(7:Int))] = some (some "Failed to remove file") :=
  ⟨by decide, sudoLinkFsFile_unbounded_retry.2.1 7 [] (by decide)⟩

set_option maxRecDepth 40000 in
/-- Claim C9: for every www flag, domain and port (the ssl flag is not
even an input of the template), the rendered basic template contains the
directive `listen 443 ssl;` immediately followed by ssl_certificate and
ssl_certificate_key paths under /etc/letsencrypt/live/DOMAIN/ — i.e. the
configuration unconditionally references TLS certificate files. -/
theorem basicTemplate_unconditional_ssl_directives (www : Bool) (domain port timestamp : String) :
    ∃ pre post : String,
      generateBasicNginxConfigTemplate www domain port timestamp =
        pre ++ ("listen 443 ssl;\n    ssl_certificate /etc/letsencrypt/live/" ++ domain ++
          "/fullchain.pem; \n    ssl_certificate_key /etc/letsencrypt/live/" ++ domain ++
          "/privkey.pem;") ++ post := by
  have hE : (";\n        proxy_http_version 1.1;\n        proxy_set_header Upgrade $http_upgrade;\n        proxy_set_header Connection \x27upgrade\x27;\n        proxy_set_header Host $host;\n        proxy_cache_bypass $http_upgrade;\n        proxy_set_header X-Real-IP $remote_addr;\n        proxy_set_header X-Forwarded-For $proxy_add_x_forwarded_for;\n        proxy_set_header X-Forwarded-Proto $scheme;\n    \x7d\n    \n    listen 443 ssl;\n    ssl_certificate /etc/letsencrypt/live/" : String) =
      ";\n        proxy_http_version 1.1;\n        proxy_set_header Upgrade $http_upgrade;\n        proxy_set_header Connection \x27upgrade\x27;\n        proxy_set_header Host $host;\n        proxy_cache_bypass $http_upgrade;\n        proxy_set_header X-Real-IP $remote_addr;\n        proxy_set_header X-Forwarded-For $proxy_add_x_forwarded_for;\n        proxy_set_header X-Forwarded-Proto $scheme;\n    \x7d\n    \n    " ++
      "listen 443 ssl;\n    ssl_certificate /etc/letsencrypt/live/" := by decide
  have hG : ("/privkey.pem;\n    include /etc/letsencrypt/options-ssl-nginx.conf;\n    ssl_dhparam /etc/letsencrypt/ssl-dhparams.pem;\n\x7d\n\nserver \x7b\n    if ($host = " : String) =
      "/privkey.pem;" ++
      "\n    include /etc/letsencrypt/options-ssl-nginx.conf;\n    ssl_dhparam /etc/letsencrypt/ssl-dhparams.pem;\n\x7d\n\nserver \x7b\n    if ($host = " := by decide
  refine ⟨"# fast-nginx generated configuration for " ++ domain ++ "\n# Generated on: " ++
    timestamp ++ "\n\nserver \x7b\n    listen 80;\n    server_name " ++ domain ++
    (if www then " www." ++ domain else "") ++
    ";\n\n    location / \x7b\n        proxy_pass http://127.0.0.1:" ++ port ++
    ";\n        proxy_http_version 1.1;\n        proxy_set_header Upgrade $http_upgrade;\n        proxy_set_header Connection \x27upgrade\x27;\n        proxy_set_header Host $host;\n        proxy_cache_bypass $http_upgrade;\n        proxy_set_header X-Real-IP $remote_addr;\n        proxy_set_header X-Forwarded-For $proxy_add_x_forwarded_for;\n        proxy_set_header X-Forwarded-Proto $scheme;\n    \x7d\n    \n    ",
    "\n    include /etc/letsencrypt/options-ssl-nginx.conf;\n    ssl_dhparam /etc/letsencrypt/ssl-dhparams.pem;\n\x7d\n\nserver \x7b\n    if ($host = " ++ domain ++
    ") \x7b\n        return 301 https://$host$request_uri;\n    \x7d # managed by Certbot\n\n    listen 80;\n    server_name " ++ domain ++
    ";\n    return 404; # managed by Certbot\n\x7d", ?_⟩
  rw [generateBasicNginxConfigTemplate, hE, hG]
  simp only [String.append_assoc]

/-- Claim C1 (code bug): a failing configuration test triggers no rollback
of any kind, and the claimed precondition is unreachable.  First run
(test fails): the test genuinely runs and fails after the "available" file
was successfully written; the test-failure handler of bin/cli.js lines
576-582 is a bare `process.exit(1)`, executed synchronously, so the event
loop never turns and neither the link cascade nor any cleanup runs — the
written file remains at the "available" path, unlinked and unremoved.
Second run (test passes): the run reaches the success report, after which
the deferred link cascade deletes the "available" file, replaces it with a
dangling symlink to "fs.symlinkSync" and crashes the process with exit
code 1.  In both runs the "enabled" symlink is never created — no code
path of the shipped orchestrator writes the sites-enabled path — so no
reachable terminal state can satisfy "available written AND enabled
symlink created", and the full-rollback behavior the claim describes
(implemented in the older variants) is absent from bin/cli.js. -/
theorem configTest_failure_no_rollback :
    (setupNginxServerBlock happyOptions testFailEnv ⟨none, none⟩).outcome = .exited 1 ∧
    containsAction (setupNginxServerBlock happyOptions testFailEnv ⟨none, none⟩).trace
      (.execA " sudo nginx -t") = true ∧
    (setupNginxServerBlock happyOptions testFailEnv ⟨none, none⟩).fs.available =
      some (.file (getTemplate "basic" false "myapp.com" "3000" "2024-01-01T00:00:00.000Z")) ∧
    (setupNginxServerBlock happyOptions testFailEnv ⟨none, none⟩).fs.enabled = none ∧
    containsAction (setupNginxServerBlock happyOptions testFailEnv ⟨none, none⟩).trace
      (.rmA "/etc/nginx/sites-available/myapp.com") = false ∧
    (setupNginxServerBlock happyOptions happyEnv ⟨none, none⟩).outcome = .exited 1 ∧
    (setupNginxServerBlock happyOptions happyEnv ⟨none, none⟩).fs.available =
      some (.symlink "fs.symlinkSync") ∧
    (setupNginxServerBlock happyOptions happyEnv ⟨none, none⟩).fs.enabled = none := by decide

/-- Claim C6 (code bug): a run that passes the configuration test (here
the first `ln` exits with a generic code, so the deferred link cascade
invokes no callback and the process exits normally) completes with exit
code 0 without ever invoking a reload command, although the no-reload
flag is not set — the reload block of bin/cli.js is commented out. -/
theorem reload_never_invoked :
    happyOptions.noReload = false ∧
    (setupNginxServerBlock happyOptions linkOtherFailEnv ⟨none, none⟩).outcome = .exited 0 ∧
    containsAction (setupNginxServerBlock happyOptions linkOtherFailEnv ⟨none, none⟩).trace
      (.execA " sudo nginx -t") = true ∧
    (setupNginxServerBlock happyOptions linkOtherFailEnv ⟨none, none⟩).trace.all
      (fun a => !isReloadExec a) = true := by decide

/-- Claim C7 (code bug): two successive force=true runs for the same domain
and identical inputs leave no "enabled" symlink at all (no code path of the
shipped orchestrator ever writes the sites-enabled path), and the second
run, like the first, exits 1 when the deferred link cascade of the
mis-wired helper call crashes on its string callback; the final state
therefore has zero, not exactly one, "enabled" symlinks. -/
theorem double_run_leaves_no_enabled_symlink :
    (setupNginxServerBlock forceOptions happyEnv ⟨none, none⟩).fs.enabled = none ∧
    (setupNginxServerBlock forceOptions happyEnv
      (setupNginxServerBlock forceOptions happyEnv ⟨none, none⟩).fs).fs.enabled = none ∧
    (setupNginxServerBlock forceOptions happyEnv
      (setupNginxServerBlock forceOptions happyEnv ⟨none, none⟩).fs).outcome = .exited 1 := by
  decide

/-- Counterexample for claim C2: with the dry-run flag set together with
--ssl but no --email, the run terminates with exit code 1 — a failure, not
the claimed success — because input validation exits before the dry-run
short circuit. -/
theorem dryRun_ssl_without_email_fails :
    (setupNginxServerBlock { happyOptions with dryRun := true, ssl := true }
      happyEnv ⟨none, none⟩).outcome = .exited 1 := by decide

/-- Counterexample for claim C4: with an existing configuration and
force=false, the run exits 1 (a failure status) without ever prompting,
even though the auto-confirm flag --yes is set; there is no confirmation
and no distinct user-cancelled status. -/
theorem conflict_no_prompt_exit_one :
    (setupNginxServerBlock { happyOptions with yes := true } happyEnv conflictFs).outcome =
      .exited 1 ∧
    (setupNginxServerBlock { happyOptions with yes := true } happyEnv conflictFs).fs =
      conflictFs ∧
    (setupNginxServerBlock { happyOptions with yes := true } happyEnv conflictFs).trace.all
      (fun a => !isPromptAction a) = true := by decide

/-- Counterexample for claim C5: when the link process fails with a generic
error code after a successful write, the run terminates (successfully!)
with the just-written "available" file still in place and no "enabled"
symlink — the orchestrator performs no rollback `rm` of any kind. -/
theorem link_failure_keeps_available_file :
    (setupNginxServerBlock happyOptions linkOtherFailEnv ⟨none, none⟩).outcome = .exited 0 ∧
    (setupNginxServerBlock happyOptions linkOtherFailEnv ⟨none, none⟩).fs.available =
      some (.file (getTemplate "basic" false "myapp.com" "3000" "2024-01-01T00:00:00.000Z")) ∧
    (setupNginxServerBlock happyOptions linkOtherFailEnv ⟨none, none⟩).fs.enabled = none ∧
    containsAction (setupNginxServerBlock happyOptions linkOtherFailEnv ⟨none, none⟩).trace
      (.rmA "/etc/nginx/sites-available/myapp.com") = false := by decide

theorem directoryCheck_dryRun_trace (opts : Options) (d a m : Bool) (n q p : String)
    (h : opts.dryRun = true) : (directoryCheck opts d a m n q p).2 = [] := by
  unfold directoryCheck
  simp [h]
  split <;> rfl

theorem includeDirectiveCheck_dryRun_trace (opts : Options) (env : Env)
    (h : opts.dryRun = true) : (includeDirectiveCheck opts env).2 = [] := by
  unfold includeDirectiveCheck
  split
  · rfl
  · split
    · rfl
    · split
      · rfl
      · simp [h]

theorem checkSystemRequirements_dryRun_trace (opts : Options) (env : Env)
    (h : opts.dryRun = true) :
    (checkSystemRequirements opts env).2 = [.execA "which nginx"] := by
  unfold checkSystemRequirements
  by_cases he : env.etcNginxExists
  · simp [he, directoryCheck_dryRun_trace _ _ _ _ _ _ _ h,
      includeDirectiveCheck_dryRun_trace _ _ h]
  · simp [he]

/-- Amended claim C2: for every combination of the other flags and every
environment, a dry run performs no filesystem mutation of any kind and
leaves both artifacts untouched; when input validation passes, it returns
success with the trace ending at the render — no action of any kind, in
particular no external process, after the render.  (The original claim's
"returns success" clause fails when validation fails, e.g. --ssl without
--email; see the counterexample.) -/
theorem dryRun_mutates_nothing (opts : Options) (env : Env) (fs0 : NginxFs)
    (h : opts.dryRun = true) :
    mutationFree (setupNginxServerBlock opts env fs0).trace = true ∧
    (setupNginxServerBlock opts env fs0).fs = fs0 ∧
    (inputsValid opts = true →
      (setupNginxServerBlock opts env fs0).outcome = .exited 0 ∧
      (setupNginxServerBlock opts env fs0).trace.getLast? = some .renderedA) := by
  have htr := checkSystemRequirements_dryRun_trace opts env h
  rcases he : opts.email with _ | e <;>
    by_cases h1 : validateDomain opts.domain <;>
      by_cases h2 : validatePort opts.port <;>
        by_cases h3 : opts.ssl <;>
          first
            | by_cases h4 : validateEmail e <;>
                simp [setupNginxServerBlock, htr, h, h1, h2, h3, h4, he,
                  mutationFree, isMutationAction, inputsValid, List.getLast?]
            | simp [setupNginxServerBlock, htr, h, h1, h2, h3, he,
                mutationFree, isMutationAction, inputsValid, List.getLast?]

/-- Witness for the amended C2 at a concrete dry run. -/
theorem dryRun_mutates_nothing_witness :
    mutationFree (setupNginxServerBlock dryRunOptions happyEnv ⟨none, none⟩).trace = true ∧
    (setupNginxServerBlock dryRunOptions happyEnv ⟨none, none⟩).outcome = .exited 0 := by
  have hmain := dryRun_mutates_nothing dryRunOptions happyEnv ⟨none, none⟩ (by decide)
  exact ⟨hmain.1, (hmain.2.2 (by decide)).1⟩

/-- Amended claim C4: whenever the "available" path for the requested
domain already exists and force-overwrite is not set (and the run gets past
the system checks and input validation), Provision terminates with exit
code 1 — an ordinary failure status — without prompting: no action at all
follows the render, so no confirmation is requested and the auto-confirm
flag is never consulted; there is no distinct user-cancelled status. -/
theorem conflict_exits_without_prompt (opts : Options) (env : Env) (fs0 : NginxFs)
    (hd : opts.dryRun = false) (hf : opts.force = false)
    (hcrit : hasCriticalError (checkSystemRequirements opts env).1 = false)
    (hv : inputsValid opts = true)
    (hex : jsExistsEntry fs0.available = true) :
    (setupNginxServerBlock opts env fs0).outcome = .exited 1 ∧
    (setupNginxServerBlock opts env fs0).fs = fs0 ∧
    (setupNginxServerBlock opts env fs0).trace.getLast? = some .renderedA := by
  rcases he : opts.email with _ | e <;>
    by_cases h3 : opts.ssl <;>
      first
        | by_cases h4 : validateEmail e <;>
            simp_all [setupNginxServerBlock, inputsValid]
        | simp_all [setupNginxServerBlock, inputsValid]

/-- Witness for the amended C4 at a concrete conflicting run. -/
theorem conflict_exits_without_prompt_witness :
    (setupNginxServerBlock happyOptions happyEnv conflictFs).outcome = .exited 1 ∧
    (setupNginxServerBlock happyOptions happyEnv conflictFs).fs = conflictFs := by
  have hmain := conflict_exits_without_prompt happyOptions happyEnv conflictFs
    (by decide) (by decide) (by decide) (by decide) (by decide)
  exact ⟨hmain.1, hmain.2.1⟩

/-- Amended claim C5: if the link step fails after a successful write in
the sense that the first `ln` process exits with a code other than 0
and 1 — so the helper invokes no callback at all — the run does not remove
the just-written "available" file: it continues, passes the configuration
test, and terminates with exit code 0 leaving the rendered file at the
"available" path and the "enabled" path untouched.  No rollback of the
"available" artifact exists on any link-failure path of the shipped
code (the only removal, `sudo rm` of the available path itself, belongs
to the helper's conflict-retry and is followed by a crash). -/
theorem link_failure_no_rollback (opts : Options) (env : Env) (fs0 : NginxFs)
    (hd : opts.dryRun = false) (hssl : opts.ssl = false)
    (hcrit : hasCriticalError (checkSystemRequirements opts env).1 = false)
    (h1 : validateDomain opts.domain = true) (h2 : validatePort opts.port = true)
    (hconf : jsExistsEntry fs0.available = false ∨ opts.force = true)
    (htee : env.teeOk = true) (hts : env.teeStderr = false)
    (hfuel : 0 < env.linkFuel)
    (hln : env.lnExitCode 0 = 2) (htest : env.nginxTestOk = true) :
    (setupNginxServerBlock opts env fs0).outcome = .exited 0 ∧
    (setupNginxServerBlock opts env fs0).fs.available =
      some (.file (getTemplate opts.template opts.www opts.domain opts.port env.now)) ∧
    (setupNginxServerBlock opts env fs0).fs.enabled = fs0.enabled := by
  obtain ⟨k, hk⟩ : ∃ k, env.linkFuel = k + 1 := ⟨env.linkFuel - 1, by omega⟩
  rcases hconf with hc | hc <;>
    simp [setupNginxServerBlock, hd, hssl, hcrit, h1, h2, hc, htee, hts, htest,
      hk, cliLinkCascade, hln]

/-- Witness for the amended C5 at a concrete run. -/
theorem link_failure_no_rollback_witness :
    (setupNginxServerBlock happyOptions linkOtherFailEnv ⟨none, none⟩).outcome = .exited 0 ∧
    (setupNginxServerBlock happyOptions linkOtherFailEnv ⟨none, none⟩).fs.enabled = none := by
  have hmain := link_failure_no_rollback happyOptions linkOtherFailEnv ⟨none, none⟩
    (by decide) (by decide) (by decide) (by decide) (by decide) (Or.inl (by decide))
    (by decide) (by decide) (by decide) (by decide) (by decide)
  exact ⟨hmain.1, hmain.2.2⟩

end FastNginx
